import Mathlib

/-!
Shallow embedding of `src/quick_deploy.py`, a deployment helper script:
it reads a credential from the process environment, reads a local source
artifact, then tries to PUT a JSON payload to an ordered list of candidate
endpoints, stopping at the first response with HTTP status below 400.
If every attempt fails the top-level block issues a fallback GET against a
fixed health endpoint and prints diagnostics extracted from its JSON body.

The effectful Python code is modelled as pure functions over a `World`
record that supplies the environment, the artifact file contents and the
network behaviour (one outcome per PUT URL, one outcome for the fallback
GET).  Every run produces a trace of observable events (prints and HTTP
requests issued, in order) together with a result: `Except PyError Bool`
for `deploy_function`, where `PyError` stands for an unhandled Python
exception escaping the call.
-/

set_option autoImplicit false

namespace QuickDeploy

/-- Values produced by parsing a JSON response body, as Python would
return them from `resp.json()`. -/
inductive Json where
  | null : Json
  | bool : Bool → Json
  | num : Int → Json
  | str : String → Json
  | arr : List Json → Json
  | obj : List (String × Json) → Json

mutual

/-- Python `repr` of a parsed JSON value (used by `str` on non-strings). -/
def pyRepr : Json → String
  | .null => "None"
  | .bool true => "True"
  | .bool false => "False"
  | .num n => toString n
  | .str s => "\x27" ++ s ++ "\x27"
  | .arr xs => "[" ++ String.intercalate ", " (pyReprList xs) ++ "]"
  | .obj fs =>
      "\x7b" ++ String.intercalate ", " (pyReprFields fs) ++ "\x7d"

/-- Rendering of each element of a JSON array by `pyRepr`. -/
def pyReprList : List Json → List String
  | [] => []
  | j :: js => pyRepr j :: pyReprList js

/-- Rendering of each `key: value` entry of a JSON object by `pyRepr`. -/
def pyReprFields : List (String × Json) → List String
  | [] => []
  | (k, v) :: fs => ("\x27" ++ k ++ "\x27: " ++ pyRepr v) :: pyReprFields fs

end

/-- Python `str` of a parsed JSON value: a string is rendered verbatim,
anything else as its `repr`. -/
def pyStr : Json → String
  | .str s => s
  | j => pyRepr j

/-- Python `str` of a boolean, as printed by an f-string. -/
def pyBoolStr : Bool → String
  | true => "True"
  | false => "False"

/-- Test that the first character list starts the second, written out so
that it evaluates by kernel reduction. -/
def listIsPref : List Char → List Char → Bool
  | [], _ => true
  | _ :: _, [] => false
  | a :: as, b :: bs => a == b && listIsPref as bs

/-- Python substring test `needle in hay` on character lists. -/
def listContainsSub (needle : List Char) : List Char → Bool
  | [] => needle.isEmpty
  | c :: rest => listIsPref needle (c :: rest) || listContainsSub needle rest

/-- Python substring test `needle in hay` on strings. -/
def strContains (hay needle : String) : Bool :=
  listContainsSub needle.toList hay.toList

/-- Python `s.lower()` (ASCII range, the only range the script relies
on), written over the character list so that it evaluates by kernel
reduction. -/
def strLower (s : String) : String :=
  String.mk (s.toList.map Char.toLower)

/-- Python `d.get(k, dflt)` on a dictionary modelled as an association
list. -/
def dictGet (d : List (String × Json)) (k : String) (dflt : Json) : Json :=
  match d.lookup k with
  | some v => v
  | none => dflt

/-- Python iteration over a parsed JSON value: lists yield their elements,
strings their characters, dictionaries their keys; other values are not
iterable (`none` models the `TypeError`). -/
def pyIter : Json → Option (List Json)
  | .arr xs => some xs
  | .str s => some (s.toList.map (fun c => Json.str (String.singleton c)))
  | .obj fs => some (fs.map (fun p => Json.str p.1))
  | _ => none

/-- The deployment payload: `{"slug": ..., "body": ..., "verify_jwt": ...}`
built at lines 16-20 of the script. -/
structure Payload where
  slug : String
  body : String
  verify_jwt : Bool

/-- Outcome of one `requests.put` call: either a response with a status
code and body text, or a raised exception carrying a message. -/
inductive PutOutcome where
  | resp : Nat → String → PutOutcome
  | exn : String → PutOutcome

/-- Outcome of the fallback `requests.get` followed by `resp.json()`:
a raised network exception, a response whose body fails to parse as JSON
(`resp none`), or a parsed JSON body. -/
inductive GetOutcome where
  | exn : String → GetOutcome
  | resp : Option Json → GetOutcome

/-- One observable action of a run: a line printed, a PUT issued with its
URL, payload, headers and timeout, or a GET issued with its URL. -/
inductive Event where
  | printLine : String → Event
  | putReq : String → Payload → List (String × String) → Nat → Event
  | getReq : String → Event

/-- True for HTTP PUT events. -/
def Event.isPut : Event → Bool
  | .putReq _ _ _ _ => true
  | _ => false

/-- True for HTTP GET events. -/
def Event.isGet : Event → Bool
  | .getReq _ => true
  | _ => false

/-- True for HTTP request events of either kind. -/
def Event.isHttp (e : Event) : Bool := e.isPut || e.isGet

/-- URLs of the PUT requests of a trace, in order. -/
def putUrls (evs : List Event) : List String :=
  evs.filterMap (fun e =>
    match e with
    | .putReq url _ _ _ => some url
    | _ => none)

/-- Number of GET requests in a trace. -/
def getCount (evs : List Event) : Nat :=
  (evs.filter Event.isGet).length

/-- Unhandled Python exceptions the script can die with: a missing
environment variable (`KeyError`) or an unreadable artifact file
(`OSError`). -/
inductive PyError where
  | keyError : String → PyError
  | ioError : String → PyError

/-- The external world a run executes against: the process environment,
the contents of the artifact file (`none` when unreadable), and the
network behaviour for PUTs (per URL) and for the fallback GET. -/
structure World where
  env : List (String × String)
  fileContents : Option String
  put : String → PutOutcome
  get : GetOutcome

/-- Lookup of `os.environ[k]`. -/
def envLookup (env : List (String × String)) (k : String) : Option String :=
  env.lookup k

/-- Project id hard-coded at line 8 of the script. -/
def project_id : String := "gnqqktmslswgjtvxfvdo"

/-- Deployment slug used in the payload and the endpoint paths. -/
def slug : String := "twilio-voice-stream"

/-- The ordered candidate endpoints of lines 28-31. -/
def endpoints : List String :=
  ["https://api.supabase.com/v1/projects/" ++ project_id ++
     "/functions/" ++ slug,
   "https://api.supabase.io/v1/projects/" ++ project_id ++
     "/functions/" ++ slug]

/-- The payload of lines 16-20: slug, full artifact text, and
`verify_jwt` set to `False`. -/
def mkPayload (function_code : String) : Payload :=
  { slug := slug, body := function_code, verify_jwt := false }

/-- The headers dictionary of lines 22-25. -/
def mkHeaders (service_key : String) : List (String × String) :=
  [("Authorization", "Bearer " ++ service_key),
   ("Content-Type", "application/json")]

/-- The candidate loop of lines 33-45: for each endpoint print a progress
line, issue the PUT, and on a response print status and body and return
`true` when the status is below 400; any exception from the PUT is caught,
logged, and iteration continues with the next endpoint. -/
def tryEndpoints (w : World) (payload : Payload)
    (headers : List (String × String)) : List String → List Event × Bool
  | [] => ([], false)
  | url :: rest =>
    let attempt := [Event.printLine ("Trying " ++ url ++ "..."),
                    Event.putReq url payload headers 30]
    match w.put url with
    | .resp st txt =>
      let logs := [Event.printLine ("Status: " ++ toString st),
                   Event.printLine ("Response: " ++ txt)]
      if st < 400 then
        (attempt ++ logs ++ [Event.printLine "✅ Deployment successful!"],
         true)
      else
        let r := tryEndpoints w payload headers rest
        (attempt ++ logs ++ r.1, r.2)
    | .exn e =>
      let r := tryEndpoints w payload headers rest
      (attempt ++ [Event.printLine ("❌ Error: " ++ e)] ++ r.1, r.2)

/-- The function `deploy_function` of lines 7-45: read the credential from the
environment (a missing variable raises `KeyError`), read the artifact file
(an unreadable file raises `OSError`), build payload and headers once, and
run the candidate loop.  Returns the trace of events performed before
returning or dying, paired with the result. -/
def deploy_function (w : World) : List Event × Except PyError Bool :=
  match envLookup w.env "SUPABASE_SERVICE_ROLE_KEY" with
  | none => ([], .error (.keyError "SUPABASE_SERVICE_ROLE_KEY"))
  | some service_key =>
    match w.fileContents with
    | none =>
        ([], .error (.ioError "supabase/functions/twilio-voice-stream/index.ts"))
    | some function_code =>
      let payload := mkPayload function_code
      let headers := mkHeaders service_key
      let r := tryEndpoints w payload headers endpoints
      (r.1, .ok r.2)

/-- The fixed health-check URL of line 56. -/
def health_url : String :=
  "https://gnqqktmslswgjtvxfvdo.supabase.co/functions/v1/" ++ slug ++
    "?health=1"

/-- The diagnostic of line 62: some feature, viewed through Python `str`
and lowercased, contains "tenant" or contains "fallback". -/
def hasTenantFallback (features : List Json) : Bool :=
  features.any (fun f =>
    strContains (strLower (pyStr f)) "tenant" ||
    strContains (strLower (pyStr f)) "fallback")

/-- Lines printed by the `try` block of lines 55-66 as a function of the
GET outcome: on a parsed dictionary body, the version line (default
"unknown") and the tenant fallback diagnostic; any exception inside the
block -- network error, JSON parse error, a non-dictionary body, a
non-iterable `features` value -- is caught and logged as a failure
line. -/
def fallbackLines : GetOutcome → List String
  | .exn e => ["Health check failed: " ++ e]
  | .resp none => ["Health check failed: " ++ "JSONDecodeError"]
  | .resp (some (.obj health)) =>
    let versionLine :=
      "Current version: " ++ pyStr (dictGet health "version" (.str "unknown"))
    match pyIter (dictGet health "features" (.arr [])) with
    | some fs =>
        [versionLine,
         "Has tenant fallback logic: " ++ pyBoolStr (hasTenantFallback fs)]
    | none => [versionLine, "Health check failed: " ++ "TypeError"]
  | .resp (some _) => ["Health check failed: " ++ "AttributeError"]

/-- The fallback health check of lines 54-66: issue the GET against the
fixed health URL, then print the diagnostic lines determined by its
outcome.  No exception escapes the block. -/
def fallbackCheck (w : World) : List Event :=
  Event.getReq health_url :: (fallbackLines w.get).map Event.printLine

/-- Top-level block of lines 47-66 (`__main__`): run `deploy_function`; when it
returns `False`, print the failure banner and run the fallback health
check.  An exception escaping `deploy_function` escapes the script. -/
def mainBlock (w : World) : List Event × Except PyError Unit :=
  let d := deploy_function w
  match d.2 with
  | .error e => (d.1, .error e)
  | .ok true => (d.1, .ok ())
  | .ok false =>
      (d.1 ++
       [Event.printLine "❌ All deployment attempts failed",
        Event.printLine "\n🔍 Testing current deployed function..."] ++
       fallbackCheck w,
       .ok ())

/-- Success test of line 39 applied to a PUT outcome: a response arrived
and its status code is strictly below 400. -/
def succOutcome : PutOutcome → Bool
  | .resp st _ => st < 400
  | .exn _ => false

/-- The first candidate endpoint (the `api.supabase.com` host), spelled
out. -/
def epFirst : String :=
  "https://api.supabase.com/v1/projects/gnqqktmslswgjtvxfvdo/functions/twilio-voice-stream"

/-- The second candidate endpoint (the `api.supabase.io` host), spelled
out. -/
def epSecond : String :=
  "https://api.supabase.io/v1/projects/gnqqktmslswgjtvxfvdo/functions/twilio-voice-stream"

/-- A process environment holding the required credential. -/
def baseEnv : List (String × String) := [("SUPABASE_SERVICE_ROLE_KEY", "sk")]

/-- Concrete world: the first candidate answers 500, the second 200. -/
def w500then200 : World :=
  { env := baseEnv, fileContents := some "code",
    put := fun url =>
      if url = epFirst then .resp 500 "Internal Server Error" else .resp 200 "ok",
    get := .exn "unused" }

/-- Concrete world: the first candidate answers 200. -/
def wFirst200 : World :=
  { env := baseEnv, fileContents := some "code",
    put := fun _ => .resp 200 "ok",
    get := .exn "unused" }

/-- Concrete world: every PUT answers 404 and the health body carries
version v9 and features ["color"]. -/
def wAllFail : World :=
  { env := baseEnv, fileContents := some "code",
    put := fun _ => .resp 404 "Not Found",
    get := .resp (some (.obj
      [("version", Json.str "v9"),
       ("features", Json.arr [Json.str "color"])])) }

/-- Concrete world: the credential variable is unset. -/
def wNoKey : World :=
  { env := [], fileContents := some "code",
    put := fun _ => .resp 200 "ok",
    get := .exn "unused" }

/-- Concrete world: the first candidate raises, the second answers 200. -/
def wExnThen200 : World :=
  { env := baseEnv, fileContents := some "code",
    put := fun url => if url = epFirst then .exn "ReadTimeout" else .resp 200 "ok",
    get := .exn "unused" }

/-- Concrete world: every PUT answers 503 and the fallback GET raises. -/
def wFailGetExn : World :=
  { env := baseEnv, fileContents := some "code",
    put := fun _ => .resp 503 "unavailable",
    get := .exn "ConnectionError" }

/-- Concrete world: every PUT answers 404 and the health body has a
version but no features field. -/
def wNoFeatures : World :=
  { env := baseEnv, fileContents := some "code",
    put := fun _ => .resp 404 "nf",
    get := .resp (some (.obj [("version", Json.str "v1")])) }


/-! Basic trace bookkeeping lemmas. -/

/-- No PUT URLs in an empty trace. -/
@[simp] theorem putUrls_nil : putUrls [] = [] := rfl

/-- A printed line adds no PUT URL. -/
@[simp] theorem putUrls_cons_print (s : String) (evs : List Event) :
    putUrls (Event.printLine s :: evs) = putUrls evs := rfl

/-- A PUT event contributes its URL. -/
@[simp] theorem putUrls_cons_put (url : String) (p : Payload)
    (hs : List (String × String)) (t : Nat) (evs : List Event) :
    putUrls (Event.putReq url p hs t :: evs) = url :: putUrls evs := rfl

/-- A GET event adds no PUT URL. -/
@[simp] theorem putUrls_cons_get (url : String) (evs : List Event) :
    putUrls (Event.getReq url :: evs) = putUrls evs := rfl

/-- PUT URLs of a concatenation. -/
@[simp] theorem putUrls_append (a b : List Event) :
    putUrls (a ++ b) = putUrls a ++ putUrls b := by
  simp [putUrls, List.filterMap_append]

/-- No GETs in an empty trace. -/
@[simp] theorem getCount_nil : getCount [] = 0 := rfl

/-- A printed line adds no GET. -/
@[simp] theorem getCount_cons_print (s : String) (evs : List Event) :
    getCount (Event.printLine s :: evs) = getCount evs := rfl

/-- A PUT event adds no GET. -/
@[simp] theorem getCount_cons_put (url : String) (p : Payload)
    (hs : List (String × String)) (t : Nat) (evs : List Event) :
    getCount (Event.putReq url p hs t :: evs) = getCount evs := rfl

/-- A GET event counts once. -/
@[simp] theorem getCount_cons_get (url : String) (evs : List Event) :
    getCount (Event.getReq url :: evs) = getCount evs + 1 := by
  simp [getCount, List.filter, Event.isGet]

/-- GET count of a concatenation. -/
@[simp] theorem getCount_append (a b : List Event) :
    getCount (a ++ b) = getCount a + getCount b := by
  simp [getCount, List.filter_append]

/-! Unfolding lemmas for one step of the candidate loop. -/

/-- Loop step when the PUT raises: the exception is logged and the loop
continues on the remaining candidates. -/
theorem tryEndpoints_exn (w : World) (payload : Payload)
    (headers : List (String × String)) (u : String) (rest : List String)
    (e : String) (hpu : w.put u = .exn e) :
    tryEndpoints w payload headers (u :: rest) =
      ([Event.printLine ("Trying " ++ u ++ "..."),
        Event.putReq u payload headers 30,
        Event.printLine ("❌ Error: " ++ e)] ++
         (tryEndpoints w payload headers rest).1,
       (tryEndpoints w payload headers rest).2) := by
  simp [tryEndpoints, hpu]

/-- Loop step when the PUT answers with status at least 400: status and
body are printed and the loop continues on the remaining candidates. -/
theorem tryEndpoints_resp_fail (w : World) (payload : Payload)
    (headers : List (String × String)) (u : String) (rest : List String)
    (st : Nat) (txt : String) (hpu : w.put u = .resp st txt)
    (h400 : ¬ st < 400) :
    tryEndpoints w payload headers (u :: rest) =
      ([Event.printLine ("Trying " ++ u ++ "..."),
        Event.putReq u payload headers 30,
        Event.printLine ("Status: " ++ toString st),
        Event.printLine ("Response: " ++ txt)] ++
         (tryEndpoints w payload headers rest).1,
       (tryEndpoints w payload headers rest).2) := by
  simp [tryEndpoints, hpu, if_neg h400]

/-- Loop step when the PUT answers with status below 400: status and body
are printed, success is reported, and the loop returns `true` at once. -/
theorem tryEndpoints_resp_succ (w : World) (payload : Payload)
    (headers : List (String × String)) (u : String) (rest : List String)
    (st : Nat) (txt : String) (hpu : w.put u = .resp st txt)
    (h400 : st < 400) :
    tryEndpoints w payload headers (u :: rest) =
      ([Event.printLine ("Trying " ++ u ++ "..."),
        Event.putReq u payload headers 30,
        Event.printLine ("Status: " ++ toString st),
        Event.printLine ("Response: " ++ txt),
        Event.printLine "✅ Deployment successful!"],
       true) := by
  simp [tryEndpoints, hpu, if_pos h400]

/-! Global facts about the candidate loop. -/

/-- When every candidate fails, the loop returns `false` after PUTting to
every candidate in order. -/
theorem tryEndpoints_all_fail (w : World) (payload : Payload)
    (headers : List (String × String)) :
    ∀ urls : List String, (∀ u ∈ urls, succOutcome (w.put u) = false) →
      (tryEndpoints w payload headers urls).2 = false ∧
      putUrls (tryEndpoints w payload headers urls).1 = urls := by
  intro urls
  induction urls with
  | nil => intro _; simp [tryEndpoints]
  | cons u rest ih =>
    intro hall
    have hu := hall u (List.mem_cons_self u rest)
    have hrest := ih (fun v hv => hall v (List.mem_cons_of_mem _ hv))
    cases hpu : w.put u with
    | exn e =>
      rw [tryEndpoints_exn w payload headers u rest e hpu]
      simp [hrest.1, hrest.2]
    | resp st txt =>
      rw [hpu] at hu
      simp [succOutcome] at hu
      rw [tryEndpoints_resp_fail w payload headers u rest st txt hpu (by omega)]
      simp [hrest.1, hrest.2]

/-- When every candidate before `u` fails and `u` succeeds, the loop
returns `true` after PUTting exactly to the failing candidates and then
`u`, in order; later candidates are never attempted. -/
theorem tryEndpoints_first_succ (w : World) (payload : Payload)
    (headers : List (String × String)) :
    ∀ (pre : List String) (u : String) (post : List String),
      (∀ v ∈ pre, succOutcome (w.put v) = false) →
      succOutcome (w.put u) = true →
      (tryEndpoints w payload headers (pre ++ u :: post)).2 = true ∧
      putUrls (tryEndpoints w payload headers (pre ++ u :: post)).1 =
        pre ++ [u] := by
  intro pre
  induction pre with
  | nil =>
    intro u post _ hu
    cases hpu : w.put u with
    | exn e => rw [hpu] at hu; simp [succOutcome] at hu
    | resp st txt =>
      rw [hpu] at hu
      simp [succOutcome] at hu
      rw [List.nil_append,
        tryEndpoints_resp_succ w payload headers u post st txt hpu hu]
      simp
  | cons v pre ih =>
    intro u post hpre hu
    have hv := hpre v (List.mem_cons_self v pre)
    have hrest := ih u post (fun x hx => hpre x (List.mem_cons_of_mem _ hx)) hu
    cases hpv : w.put v with
    | exn e =>
      rw [List.cons_append,
        tryEndpoints_exn w payload headers v (pre ++ u :: post) e hpv]
      simp [hrest.1, hrest.2]
    | resp st txt =>
      rw [hpv] at hv
      simp [succOutcome] at hv
      rw [List.cons_append,
        tryEndpoints_resp_fail w payload headers v (pre ++ u :: post) st txt
          hpv (by omega)]
      simp [hrest.1, hrest.2]

/-- The candidate loop never issues a GET. -/
theorem tryEndpoints_no_get (w : World) (payload : Payload)
    (headers : List (String × String)) :
    ∀ urls : List String,
      getCount (tryEndpoints w payload headers urls).1 = 0 := by
  intro urls
  induction urls with
  | nil => simp [tryEndpoints]
  | cons u rest ih =>
    cases hpu : w.put u with
    | exn e =>
      rw [tryEndpoints_exn w payload headers u rest e hpu]; simp [ih]
    | resp st txt =>
      by_cases h400 : st < 400
      · rw [tryEndpoints_resp_succ w payload headers u rest st txt hpu h400]
        simp
      · rw [tryEndpoints_resp_fail w payload headers u rest st txt hpu h400]
        simp [ih]

/-- Every PUT event of a loop trace carries exactly the payload and
headers the loop was given, and timeout 30. -/
theorem tryEndpoints_put_fields (w : World) (payload : Payload)
    (headers : List (String × String)) :
    ∀ (urls : List String) (url : String) (q : Payload)
      (hh : List (String × String)) (t : Nat),
      Event.putReq url q hh t ∈ (tryEndpoints w payload headers urls).1 →
      q = payload ∧ hh = headers ∧ t = 30 := by
  intro urls
  induction urls with
  | nil => intro url q hh t hmem; simp [tryEndpoints] at hmem
  | cons u rest ih =>
    intro url q hh t hmem
    cases hpu : w.put u with
    | exn e =>
      rw [tryEndpoints_exn w payload headers u rest e hpu] at hmem
      simp at hmem
      rcases hmem with ⟨_, h1, h2, h3⟩ | hmem
      · exact ⟨h1, h2, h3⟩
      · exact ih url q hh t hmem
    | resp st txt =>
      by_cases h400 : st < 400
      · rw [tryEndpoints_resp_succ w payload headers u rest st txt hpu h400]
          at hmem
        simp at hmem
        obtain ⟨_, h1, h2, h3⟩ := hmem
        exact ⟨h1, h2, h3⟩
      · rw [tryEndpoints_resp_fail w payload headers u rest st txt hpu h400]
          at hmem
        simp at hmem
        rcases hmem with ⟨_, h1, h2, h3⟩ | hmem
        · exact ⟨h1, h2, h3⟩
        · exact ih url q hh t hmem

/-- Whenever a loop trace holds a PUT event for a URL whose outcome is a
response, the trace also holds the printed status line and the printed
response body line. -/
theorem tryEndpoints_resp_logged (w : World) (payload : Payload)
    (headers : List (String × String)) :
    ∀ (urls : List String) (u : String) (q : Payload)
      (hh : List (String × String)) (t : Nat) (st : Nat) (txt : String),
      Event.putReq u q hh t ∈ (tryEndpoints w payload headers urls).1 →
      w.put u = .resp st txt →
      Event.printLine ("Status: " ++ toString st) ∈
        (tryEndpoints w payload headers urls).1 ∧
      Event.printLine ("Response: " ++ txt) ∈
        (tryEndpoints w payload headers urls).1 := by
  intro urls
  induction urls with
  | nil => intro u q hh t st txt hmem _; simp [tryEndpoints] at hmem
  | cons v rest ih =>
    intro u q hh t st txt hmem hresp
    cases hpv : w.put v with
    | exn e =>
      rw [tryEndpoints_exn w payload headers v rest e hpv] at hmem ⊢
      simp at hmem
      rcases hmem with ⟨hu, _, _, _⟩ | hmem
      · rw [← hu] at hpv; rw [hresp] at hpv; exact absurd hpv (by simp)
      · have h := ih u q hh t st txt hmem hresp
        simp [h.1, h.2]
    | resp st' txt' =>
      by_cases h400 : st' < 400
      · rw [tryEndpoints_resp_succ w payload headers v rest st' txt' hpv h400]
          at hmem ⊢
        simp at hmem
        obtain ⟨hu, _, _, _⟩ := hmem
        rw [← hu] at hpv; rw [hresp] at hpv
        obtain ⟨h1, h2⟩ := PutOutcome.resp.inj hpv
        simp [h1, h2]
      · rw [tryEndpoints_resp_fail w payload headers v rest st' txt' hpv h400]
          at hmem ⊢
        simp at hmem
        rcases hmem with ⟨hu, _, _, _⟩ | hmem
        · rw [← hu] at hpv; rw [hresp] at hpv
          obtain ⟨h1, h2⟩ := PutOutcome.resp.inj hpv
          simp [h1, h2]
        · have h := ih u q hh t st txt hmem hresp
          simp [h.1, h.2]

/-! Unfolding lemmas for the whole run. -/

/-- With the credential and artifact present, the deploy procedure is the
candidate loop over the fixed endpoints, with payload and headers built
once from the artifact text and the credential. -/
theorem deploy_eq (w : World) (k code : String)
    (hk : envLookup w.env "SUPABASE_SERVICE_ROLE_KEY" = some k)
    (hf : w.fileContents = some code) :
    deploy_function w =
      ((tryEndpoints w (mkPayload code) (mkHeaders k) endpoints).1,
       .ok (tryEndpoints w (mkPayload code) (mkHeaders k) endpoints).2) := by
  simp [deploy_function, hk, hf]

/-- When deployment succeeds, the top-level block ends right after it. -/
theorem mainBlock_of_deploy_true (w : World)
    (h : (deploy_function w).2 = .ok true) :
    mainBlock w = ((deploy_function w).1, .ok ()) := by
  simp [mainBlock, h]

/-- When deployment fails, the top-level block appends the failure banner
and the fallback health check. -/
theorem mainBlock_of_deploy_false (w : World)
    (h : (deploy_function w).2 = .ok false) :
    mainBlock w =
      ((deploy_function w).1 ++
        [Event.printLine "❌ All deployment attempts failed",
         Event.printLine "\n🔍 Testing current deployed function..."] ++
        fallbackCheck w,
       .ok ()) := by
  simp [mainBlock, h]

/-- Printed lines contain no GET. -/
theorem getCount_map_printLine (ls : List String) :
    getCount (ls.map Event.printLine) = 0 := by
  induction ls with
  | nil => simp
  | cons s rest ih => simp [ih]

/-- The fallback health check issues exactly one GET. -/
theorem getCount_fallbackCheck (w : World) :
    getCount (fallbackCheck w) = 1 := by
  simp [fallbackCheck, getCount_map_printLine]

/-! The claims. -/

/-- C1: for every run with a readable artifact and credential present,
the deploy procedure issues HTTP PUTs to the candidate endpoints in their
listed order and stops at the first candidate whose response has HTTP
status strictly below 400, returning true without attempting any later
candidate: when the endpoint list splits as `pre ++ u :: post` with every
candidate of `pre` failing (error status or raised exception) and `u`
succeeding, the run returns `true` and the PUTs issued are exactly
`pre ++ [u]`, in order. -/
theorem C1_stops_at_first_success (w : World) (k code : String)
    (pre : List String) (u : String) (post : List String)
    (hk : envLookup w.env "SUPABASE_SERVICE_ROLE_KEY" = some k)
    (hf : w.fileContents = some code)
    (hend : endpoints = pre ++ u :: post)
    (hpre : ∀ v ∈ pre, succOutcome (w.put v) = false)
    (hu : succOutcome (w.put u) = true) :
    (deploy_function w).2 = Except.ok true ∧
    putUrls (deploy_function w).1 = pre ++ [u] := by
  rw [deploy_eq w k code hk hf, hend]
  have h := tryEndpoints_first_succ w (mkPayload code) (mkHeaders k) pre u post
    hpre hu
  exact ⟨by simp [h.1], by simp [h.2]⟩

/-- Witness for C1: the first candidate answers 500 and the second 200,
so the run returns true after exactly the two PUTs, in order. -/
theorem C1_witness :
    succOutcome (w500then200.put epSecond) = true ∧
    (deploy_function w500then200).2 = Except.ok true ∧
    putUrls (deploy_function w500then200).1 = [epFirst, epSecond] :=
  ⟨rfl, C1_stops_at_first_success w500then200 "sk" "code" [epFirst] epSecond []
    rfl rfl rfl (by decide) rfl⟩

/-- C2: with credential and artifact present, if every candidate attempt
fails then the deploy procedure returns false and the top-level run issues
the fallback GET against the fixed health endpoint exactly once, and if
the deploy procedure returns true then no GET at all is issued. -/
theorem C2_fallback_get_iff_deploy_failed (w : World) (k code : String)
    (hk : envLookup w.env "SUPABASE_SERVICE_ROLE_KEY" = some k)
    (hf : w.fileContents = some code) :
    ((∀ u ∈ endpoints, succOutcome (w.put u) = false) →
      (deploy_function w).2 = Except.ok false ∧
      getCount (mainBlock w).1 = 1 ∧
      Event.getReq health_url ∈ (mainBlock w).1) ∧
    ((deploy_function w).2 = Except.ok true →
      getCount (mainBlock w).1 = 0) := by
  constructor
  · intro hall
    have h := tryEndpoints_all_fail w (mkPayload code) (mkHeaders k) endpoints
      hall
    have hd : (deploy_function w).2 = Except.ok false := by
      rw [deploy_eq w k code hk hf]; simp [h.1]
    refine ⟨hd, ?_, ?_⟩
    · rw [mainBlock_of_deploy_false w hd]
      simp [getCount_fallbackCheck, deploy_eq w k code hk hf,
        tryEndpoints_no_get]
    · rw [mainBlock_of_deploy_false w hd]
      simp [fallbackCheck]
  · intro hd
    rw [mainBlock_of_deploy_true w hd]
    simp [deploy_eq w k code hk hf, tryEndpoints_no_get]

/-- Witness for C2: with both candidates answering 404 the run returns
false and issues exactly one GET, against the health URL. -/
theorem C2_witness :
    (deploy_function wAllFail).2 = Except.ok false ∧
    getCount (mainBlock wAllFail).1 = 1 ∧
    Event.getReq health_url ∈ (mainBlock wAllFail).1 :=
  (C2_fallback_get_iff_deploy_failed wAllFail "sk" "code" rfl rfl).1 (by decide)

/-- C3: when the credential environment variable is absent the run dies
with the unhandled `KeyError` raised at line 9, with an empty set of HTTP
requests (no PUT and no GET was issued). -/
theorem C3_missing_credential_fails_before_http (w : World)
    (hk : envLookup w.env "SUPABASE_SERVICE_ROLE_KEY" = none) :
    (mainBlock w).1.filter Event.isHttp = [] ∧
    (mainBlock w).2 =
      Except.error (PyError.keyError "SUPABASE_SERVICE_ROLE_KEY") := by
  have hd : deploy_function w =
      ([], Except.error (PyError.keyError "SUPABASE_SERVICE_ROLE_KEY")) := by
    simp [deploy_function, hk]
  constructor <;> simp [mainBlock, hd]

/-- Witness for C3: a world with an empty environment. -/
theorem C3_witness :
    (mainBlock wNoKey).1.filter Event.isHttp = [] ∧
    (mainBlock wNoKey).2 =
      Except.error (PyError.keyError "SUPABASE_SERVICE_ROLE_KEY") :=
  C3_missing_credential_fails_before_http wNoKey rfl

/-- C4: the "has tenant fallback logic" diagnostic is true exactly when
some element of the features sequence, through Python `str` and
lowercasing, contains "tenant" or contains "fallback"; it is true on
["tenant-override"], false on ["color"], and when the features field is
absent from the health body the fallback check still prints the
diagnostic, as False, with no error. -/
theorem C4_tenant_fallback_diag :
    (∀ fs : List Json, hasTenantFallback fs = true ↔
      ∃ f ∈ fs, strContains (strLower (pyStr f)) "tenant" = true ∨
                strContains (strLower (pyStr f)) "fallback" = true) ∧
    hasTenantFallback [Json.str "tenant-override"] = true ∧
    hasTenantFallback [Json.str "color"] = false ∧
    fallbackCheck wNoFeatures =
      [Event.getReq health_url,
       Event.printLine "Current version: v1",
       Event.printLine "Has tenant fallback logic: False"] := by
  refine ⟨?_, rfl, rfl, rfl⟩
  intro fs
  simp [hasTenantFallback, List.any_eq_true, Bool.or_eq_true]

/-- C5: an exception raised during one candidate PUT is caught and logged
and the loop continues with the next candidates: the step rewrites to the
progress line, the attempted PUT and the logged error followed by the
trace and the result of the remaining candidates, and no error escapes. -/
theorem C5_exception_caught_logged_continue (w : World) (payload : Payload)
    (headers : List (String × String)) (u : String) (rest : List String)
    (e : String) (hpu : w.put u = PutOutcome.exn e) :
    tryEndpoints w payload headers (u :: rest) =
      ([Event.printLine ("Trying " ++ u ++ "..."),
        Event.putReq u payload headers 30,
        Event.printLine ("❌ Error: " ++ e)] ++
         (tryEndpoints w payload headers rest).1,
       (tryEndpoints w payload headers rest).2) :=
  tryEndpoints_exn w payload headers u rest e hpu

/-- Witness for C5: the first candidate raises a timeout and the loop
continues with the second candidate. -/
theorem C5_witness :
    wExnThen200.put epFirst = PutOutcome.exn "ReadTimeout" ∧
    tryEndpoints wExnThen200 (mkPayload "code") (mkHeaders "sk")
        (epFirst :: [epSecond]) =
      ([Event.printLine ("Trying " ++ epFirst ++ "..."),
        Event.putReq epFirst (mkPayload "code") (mkHeaders "sk") 30,
        Event.printLine ("❌ Error: " ++ "ReadTimeout")] ++
         (tryEndpoints wExnThen200 (mkPayload "code") (mkHeaders "sk")
           [epSecond]).1,
       (tryEndpoints wExnThen200 (mkPayload "code") (mkHeaders "sk")
         [epSecond]).2) :=
  ⟨rfl, C5_exception_caught_logged_continue wExnThen200 (mkPayload "code")
    (mkHeaders "sk") epFirst [epSecond] "ReadTimeout" rfl⟩

/-- C6: in every run that reaches the fallback health check, the
top-level block terminates normally, and when the fallback GET raises or
its body fails to parse as JSON the caught exception is logged as a
failure diagnostic in the trace. -/
theorem C6_fallback_errors_swallowed (w : World)
    (hfail : (deploy_function w).2 = Except.ok false) :
    (mainBlock w).2 = Except.ok () ∧
    (∀ e, w.get = GetOutcome.exn e →
      Event.printLine ("Health check failed: " ++ e) ∈ (mainBlock w).1) ∧
    (w.get = GetOutcome.resp none →
      Event.printLine ("Health check failed: " ++ "JSONDecodeError") ∈
        (mainBlock w).1) := by
  rw [mainBlock_of_deploy_false w hfail]
  refine ⟨rfl, ?_, ?_⟩
  · intro e he
    simp [fallbackCheck, fallbackLines, he]
  · intro he
    simp [fallbackCheck, fallbackLines, he]

/-- Witness for C6: deployment fails everywhere and the fallback GET
raises, yet the run ends normally with the failure diagnostic printed. -/
theorem C6_witness :
    (mainBlock wFailGetExn).2 = Except.ok () ∧
    Event.printLine "Health check failed: ConnectionError" ∈
      (mainBlock wFailGetExn).1 :=
  ⟨(C6_fallback_errors_swallowed wFailGetExn rfl).1,
   (C6_fallback_errors_swallowed wFailGetExn rfl).2.1 "ConnectionError" rfl⟩

/-- C7: every PUT event of a run with credential and artifact present
carries the payload built once from the artifact (slug, body,
`verify_jwt` false), the bearer headers built once from the credential,
and timeout 30 -- identical across all candidates. -/
theorem C7_constant_payload_headers_timeout (w : World) (k code : String)
    (hk : envLookup w.env "SUPABASE_SERVICE_ROLE_KEY" = some k)
    (hf : w.fileContents = some code) :
    ∀ (url : String) (q : Payload) (hh : List (String × String)) (t : Nat),
      Event.putReq url q hh t ∈ (deploy_function w).1 →
      q = mkPayload code ∧ hh = mkHeaders k ∧ t = 30 := by
  intro url q hh t hmem
  rw [deploy_eq w k code hk hf] at hmem
  exact tryEndpoints_put_fields w (mkPayload code) (mkHeaders k) endpoints
    url q hh t hmem

/-- Witness for C7: the PUT of a concrete run carries exactly the built
payload, the built headers and timeout 30. -/
theorem C7_witness :
    Event.putReq epFirst (mkPayload "code") (mkHeaders "sk") 30 ∈
      (deploy_function wFirst200).1 ∧
    (mkPayload "code" = mkPayload "code" ∧
     mkHeaders "sk" = mkHeaders "sk" ∧ (30 : Nat) = 30) := by
  have hmem : Event.putReq epFirst (mkPayload "code") (mkHeaders "sk") 30 ∈
      (deploy_function wFirst200).1 :=
    List.mem_cons_of_mem _ (List.mem_cons_self _ _)
  exact ⟨hmem, C7_constant_payload_headers_timeout wFirst200 "sk" "code"
    rfl rfl epFirst (mkPayload "code") (mkHeaders "sk") 30 hmem⟩

/-- C8: for every candidate attempt whose PUT returns a response, both
the status code and the raw response body are printed, whether or not the
attempt is judged a success. -/
theorem C8_response_status_and_body_printed (w : World) (k code : String)
    (hk : envLookup w.env "SUPABASE_SERVICE_ROLE_KEY" = some k)
    (hf : w.fileContents = some code)
    (u : String) (q : Payload) (hh : List (String × String)) (t st : Nat)
    (txt : String)
    (hmem : Event.putReq u q hh t ∈ (deploy_function w).1)
    (hresp : w.put u = PutOutcome.resp st txt) :
    Event.printLine ("Status: " ++ toString st) ∈ (deploy_function w).1 ∧
    Event.printLine ("Response: " ++ txt) ∈ (deploy_function w).1 := by
  rw [deploy_eq w k code hk hf] at hmem ⊢
  exact tryEndpoints_resp_logged w (mkPayload code) (mkHeaders k) endpoints
    u q hh t st txt hmem hresp

/-- Witness for C8: a successful attempt still prints both status and
body. -/
theorem C8_witness :
    wFirst200.put epFirst = PutOutcome.resp 200 "ok" ∧
    Event.printLine ("Status: " ++ toString 200) ∈
      (deploy_function wFirst200).1 ∧
    Event.printLine ("Response: " ++ "ok") ∈ (deploy_function wFirst200).1 := by
  have hmem : Event.putReq epFirst (mkPayload "code") (mkHeaders "sk") 30 ∈
      (deploy_function wFirst200).1 :=
    List.mem_cons_of_mem _ (List.mem_cons_self _ _)
  exact ⟨rfl, C8_response_status_and_body_printed wFirst200 "sk" "code"
    rfl rfl epFirst (mkPayload "code") (mkHeaders "sk") 30 200 "ok" hmem rfl⟩

/-- C9: with the credential set and the artifact readable,
`deploy_function` terminates normally and returns a boolean; no exception
propagates out of the candidate loop. -/
theorem C9_deploy_total_returns_bool (w : World) (k code : String)
    (hk : envLookup w.env "SUPABASE_SERVICE_ROLE_KEY" = some k)
    (hf : w.fileContents = some code) :
    ∃ b : Bool, (deploy_function w).2 = Except.ok b :=
  ⟨(tryEndpoints w (mkPayload code) (mkHeaders k) endpoints).2,
   by rw [deploy_eq w k code hk hf]⟩

/-- Witness for C9 at a concrete world. -/
theorem C9_witness :
    ∃ b : Bool, (deploy_function wFirst200).2 = Except.ok b :=
  C9_deploy_total_returns_bool wFirst200 "sk" "code" rfl rfl

/-- C10: every PUT event of any run carries a payload whose `verify_jwt`
field is false: every deployment request uploaded by the script disables
JWT verification. -/
theorem C10_verify_jwt_disabled (w : World) (url : String) (q : Payload)
    (hh : List (String × String)) (t : Nat)
    (hmem : Event.putReq url q hh t ∈ (deploy_function w).1) :
    q.verify_jwt = false := by
  rcases hk : envLookup w.env "SUPABASE_SERVICE_ROLE_KEY" with _ | k
  · simp [deploy_function, hk] at hmem
  · rcases hf : w.fileContents with _ | code
    · simp [deploy_function, hk, hf] at hmem
    · rw [deploy_eq w k code hk hf] at hmem
      have h := tryEndpoints_put_fields w (mkPayload code) (mkHeaders k)
        endpoints url q hh t hmem
      rw [h.1]
      rfl

/-- Witness for C10: the PUT event of a concrete run has `verify_jwt`
false. -/
theorem C10_witness :
    Event.putReq epFirst (mkPayload "code") (mkHeaders "sk") 30 ∈
      (deploy_function wFirst200).1 ∧
    (mkPayload "code").verify_jwt = false := by
  have hmem : Event.putReq epFirst (mkPayload "code") (mkHeaders "sk") 30 ∈
      (deploy_function wFirst200).1 :=
    List.mem_cons_of_mem _ (List.mem_cons_self _ _)
  exact ⟨hmem, C10_verify_jwt_disabled wFirst200 epFirst (mkPayload "code")
    (mkHeaders "sk") 30 hmem⟩

end QuickDeploy
